import Mathlib

/-!
Verification development for the grid-trading position manager of the
quant_learning repository.

The definitions below are a shallow embedding of the Python sources
`src/strategies/btc_grid_strategy.py` (classes `BTCGridTradingStrategy` and
`DynamicBTCGridStrategy`) and `strategy/grid.py` (class
`GridTradingStrategyBase`).  Prices, sizes and cash amounts are modelled as
rationals (the Python code uses floats; binary rounding noise is abstracted
away, all counterexample inputs use exactly representable round numbers).
Order intents emitted to the backtrader broker are collected in a list;
`self.buy()` / `self.sell()` are assumed to always return an order object,
and the broker state (cash, portfolio value) is passed in as a parameter,
exactly as the strategy reads it through `self.broker`.
-/

/-- Side of an order, as distinguished by backtrader's `order.isbuy()` /
`order.issell()`. -/
inductive Side where
  | Buy : Side
  | Sell : Side
deriving DecidableEq

/-- Order status values the strategy's `notify_order` inspects.  Backtrader
has further statuses; `Partial` and `Expired` stand for every status that is
neither submitted/accepted, completed, nor canceled/margin/rejected (for those
`notify_order` only performs the `active_orders` cleanup). -/
inductive OrderStatus where
  | Submitted : OrderStatus
  | Accepted : OrderStatus
  | Completed : OrderStatus
  | Canceled : OrderStatus
  | Margin : OrderStatus
  | Rejected : OrderStatus
  | Partial : OrderStatus
  | Expired : OrderStatus
deriving DecidableEq

/-- A broker order as seen by `notify_order`: its status, side, the executed
price and size, and backtrader's order reference `order.ref`. -/
structure BtOrder where
  status : OrderStatus
  side : Side
  executed_price : ℚ
  executed_size : ℚ
  ref : ℕ
deriving DecidableEq

/-- One order intent emitted by the strategy on a bar.  `level` records which
grid level the intent was issued for (`none` for the whole-position stop-loss
liquidation issued from `next`, which is not tied to a level). -/
structure Intent where
  side : Side
  size : ℚ
  level : Option ℚ
deriving DecidableEq

/-- Value stored in `grid_levels_dict` for an occupied level:
`{'price': level, 'size': order_size, 'order_ref': order.ref}`. -/
structure LevelInfo where
  price : ℚ
  size : ℚ
  order_ref : ℕ
deriving DecidableEq

/-- Mutable strategy state of `BTCGridTradingStrategy`.  `grid_levels_dict` is
the Python dict keyed by the string `f"level_{level:.0f}"`, modelled as an
association list keyed by the rounded integer (see `level_key`).
`next_ref` models backtrader's monotonically increasing order reference
counter used when new orders are created. -/
structure Strat where
  grid_levels_dict : List (ℤ × LevelInfo)
  active_orders : List ℕ
  total_position : ℚ
  avg_buy_price : ℚ
  initial_cash : Option ℚ
  next_ref : ℕ
deriving DecidableEq

/-- The `params` tuple of `BTCGridTradingStrategy` (fields that matter to the
verified logic; `sma_period` and `print_log` only affect indicator warm-up and
logging). -/
structure GridParams where
  grid_spacing : ℚ
  grid_levels : ℤ
  base_order_size : ℚ
  martingale_factor : ℚ
  max_position : ℚ
  take_profit_pct : ℚ
  stop_loss_pct : ℚ
  dynamic_grid : Bool
deriving DecidableEq

/-- The params of `DynamicBTCGridStrategy` used by `calculate_dynamic_spacing`. -/
structure DynParams where
  grid_spacing : ℚ
  volatility_factor : ℚ
deriving DecidableEq

/-- Models the dict key `f"level_{level:.0f}"`: the level price formatted with
zero decimals, i.e. rounded to the nearest integer with ties to even (Python's
float formatting).  The formatted string is in bijection with this integer for
the price magnitudes the strategy handles, so the key is modelled as the
integer itself. -/
def level_key (p : ℚ) : ℤ :=
  if p - (⌊p⌋ : ℚ) = 1/2 then (if ⌊p⌋ % 2 = 0 then ⌊p⌋ else ⌊p⌋ + 1) else round p

/-- The integer list `[a, a+1, ..., b]`, i.e. Python's `range(a, b + 1)`. -/
def intRange (a b : ℤ) : List ℤ :=
  (List.range (b + 1 - a).toNat).map (fun k => a + (k : ℤ))

/-- Insert a rational into an already sorted list, keeping it sorted. -/
def insertSorted (x : ℚ) : List ℚ → List ℚ
  | [] => [x]
  | y :: ys => if x ≤ y then x :: y :: ys else y :: insertSorted x ys

/-- Model of Python's builtin `sorted` on a list of numbers (insertion sort:
any comparison sort computes the same ascending list of rationals). -/
def pySorted : List ℚ → List ℚ
  | [] => []
  | x :: xs => insertSorted x (pySorted xs)

/-- Python dict lookup on the association list (keys are unique because an
entry is only added under a key that is absent). -/
def dict_lookup (k : ℤ) : List (ℤ × LevelInfo) → Option LevelInfo
  | [] => none
  | e :: es => if e.1 = k then some e.2 else dict_lookup k es

/-- Python `del d[k]` on the association list. -/
def dict_erase (k : ℤ) : List (ℤ × LevelInfo) → List (ℤ × LevelInfo)
  | [] => []
  | e :: es => if e.1 = k then dict_erase k es else e :: dict_erase k es

/-- The `center_price` / `dynamic_spacing` selection at the top of
`BTCGridTradingStrategy.calculate_grid_levels`.  `sma_len` is `len(self.sma)`
(0 while the SMA indicator has produced no value yet), `sma` is `self.sma[0]`
and `atr` is `self.atr[0]`. -/
def grid_center_spacing (p : GridParams) (sma_len : ℕ) (sma atr current_price : ℚ) :
    ℚ × ℚ :=
  if p.dynamic_grid = true ∧ 0 < sma_len then (sma, max p.grid_spacing (atr * 2))
  else (current_price, p.grid_spacing)

/-- `BTCGridTradingStrategy.calculate_grid_levels`: levels at
`center + i * spacing` for `i` in `range(-grid_levels // 2, grid_levels // 2 + 1)`
(Python floor division), filtered to positive prices, returned sorted together
with the spacing. -/
def calculate_grid_levels (p : GridParams) (sma_len : ℕ) (sma atr current_price : ℚ) :
    List ℚ × ℚ :=
  let cs := grid_center_spacing p sma_len sma atr current_price
  let raw := (intRange (Int.fdiv (-p.grid_levels) 2) (Int.fdiv p.grid_levels 2)).filterMap
    (fun i => let lp := cs.1 + (i : ℚ) * cs.2; if 0 < lp then some lp else none)
  (pySorted raw, cs.2)

/-- `BTCGridTradingStrategy.calculate_order_size`: base size for non-positive
level index, martingale-scaled otherwise. -/
def calculate_order_size (p : GridParams) (level_index : ℤ) : ℚ :=
  if level_index ≤ 0 then p.base_order_size
  else p.base_order_size * p.martingale_factor ^ level_index.toNat

/-- The level index computed inline in `execute_grid_orders` when sizing a buy:
`max(0, len([l for l in grid_levels if l < level]) - grid_levels_param // 2)`. -/
def buy_level_index (p : GridParams) (grid_levels : List ℚ) (level : ℚ) : ℤ :=
  max 0 (((grid_levels.filter (fun l => decide (l < level))).length : ℤ)
    - Int.fdiv p.grid_levels 2)

/-- `BTCGridTradingStrategy.update_avg_buy_price`, verbatim: when
`total_position == 0` only `avg_buy_price` is assigned (the position total is
left untouched); otherwise the weighted average is recomputed and the size is
added to the position. -/
def update_avg_buy_price (s : Strat) (new_price new_size : ℚ) : Strat :=
  if s.total_position = 0 then { s with avg_buy_price := new_price }
  else
    let total_value := s.avg_buy_price * s.total_position + new_price * new_size
    let tp := s.total_position + new_size
    { s with total_position := tp, avg_buy_price := total_value / tp }

/-- `BTCGridTradingStrategy.notify_order`.  Submitted/accepted orders are
ignored; a completed buy goes through `update_avg_buy_price`, a completed sell
decrements `total_position`; canceled/margin/rejected orders are only logged.
In every non-ignored case the order is dropped from `active_orders`.  The
Python method never touches `grid_levels_dict`. -/
def notify_order (s : Strat) (o : BtOrder) : Strat :=
  if o.status = OrderStatus.Submitted ∨ o.status = OrderStatus.Accepted then s
  else
    let s1 :=
      if o.status = OrderStatus.Completed then
        match o.side with
        | Side.Buy => update_avg_buy_price s o.executed_price o.executed_size
        | Side.Sell => { s with total_position := s.total_position - o.executed_size }
      else s
    { s1 with active_orders := s1.active_orders.filter (fun r => r != o.ref) }

/-- One iteration of the `for i, level in enumerate(closest_levels)` loop body
of `BTCGridTradingStrategy.execute_grid_orders`, threading the strategy state
and the list of intents emitted so far. -/
def execute_level (p : GridParams) (current_price cash : ℚ) (grid_levels : List ℚ)
    (acc : Strat × List Intent) (level : ℚ) : Strat × List Intent :=
  let s := acc.1
  let out := acc.2
  let key := level_key level
  if current_price ≤ level * (1005/1000) ∧
      dict_lookup key s.grid_levels_dict = none ∧
      s.total_position < p.max_position then
    let order_size := calculate_order_size p (buy_level_index p grid_levels level)
    if level * order_size ≤ cash then
      ({ s with
          grid_levels_dict :=
            s.grid_levels_dict ++ [(key, ⟨level, order_size, s.next_ref⟩)],
          active_orders := s.active_orders ++ [s.next_ref],
          next_ref := s.next_ref + 1 },
        out ++ [⟨Side.Buy, order_size, some level⟩])
    else acc
  else
    match dict_lookup key s.grid_levels_dict with
    | some info =>
      if level * (1 + p.take_profit_pct) ≤ current_price ∧
          info.size ≤ s.total_position then
        ({ s with
            grid_levels_dict := dict_erase key s.grid_levels_dict,
            active_orders := s.active_orders ++ [s.next_ref],
            next_ref := s.next_ref + 1 },
          out ++ [⟨Side.Sell, info.size, some level⟩])
      else acc
    | none => acc

/-- `BTCGridTradingStrategy.execute_grid_orders`: keep the levels within
`grid_spacing * 2` of the close, then run the buy/sell loop over them. -/
def execute_grid_orders (p : GridParams) (current_price cash : ℚ)
    (grid_levels : List ℚ) (s : Strat) : Strat × List Intent :=
  let closest_levels := grid_levels.filter
    (fun level => decide (|level - current_price| ≤ p.grid_spacing * 2))
  closest_levels.foldl (execute_level p current_price cash grid_levels) (s, [])

/-- `BTCGridTradingStrategy.next`: capture `initial_cash` on the first bar,
recompute the grid, run the whole-position stop-loss check (which, on breach,
issues a single `sell(size=self.total_position)` and returns without touching
`grid_levels_dict`), otherwise run `execute_grid_orders`.  `broker_value` is
`self.broker.getvalue()` and `cash` is `self.broker.getcash()`. -/
def nextBar (p : GridParams) (sma_len : ℕ) (sma atr close broker_value cash : ℚ)
    (s : Strat) : Strat × List Intent :=
  let init := s.initial_cash.getD broker_value
  let s0 := { s with initial_cash := some init }
  let gl := (calculate_grid_levels p sma_len sma atr close).1
  if 0 < s0.total_position ∧ (broker_value - init) / init < -p.stop_loss_pct then
    (s0, [⟨Side.Sell, s0.total_position, none⟩])
  else
    execute_grid_orders p close cash gl s0

/-- `DynamicBTCGridStrategy.calculate_dynamic_spacing`: base spacing until 10
volatility samples are recorded, then the base spacing scaled by
`1 + (mean of last 10 samples / current price) * volatility_factor`, clamped
into `[100, 1000]`. -/
def calculate_dynamic_spacing (p : DynParams) (volatility_history : List ℚ)
    (current_price : ℚ) : ℚ :=
  if volatility_history.length < 10 then p.grid_spacing
  else
    let recent_volatility :=
      ((volatility_history.drop (volatility_history.length - 10)).sum) / 10
    let volatility_ratio := recent_volatility / current_price
    let ds := p.grid_spacing * (1 + volatility_ratio * p.volatility_factor)
    max 100 (min 1000 ds)

/-- `GridTradingStrategyBase._initialize_grid` of `strategy/grid.py`: the buy
grid `[start_price - i * grid_space for i in range(1, max_layers + 1)]` —
note the list is descending in price. -/
def gridpy_buy_levels (start_price grid_space : ℚ) (max_layers : ℕ) : List ℚ :=
  (List.range max_layers).map (fun i => start_price - ((i : ℚ) + 1) * grid_space)

/-! Helper lemmas about association-list lookup, the per-level loop body, and
the fold over the closest levels. -/

lemma dict_lookup_append_single {k k' : ℤ} (v : LevelInfo)
    (xs : List (ℤ × LevelInfo)) (h : k' ≠ k) :
    dict_lookup k (xs ++ [(k', v)]) = dict_lookup k xs := by
  induction xs with
  | nil => simp [dict_lookup, h]
  | cons e es ih => simp [dict_lookup, ih]

lemma dict_lookup_erase_ne {k k' : ℤ} (xs : List (ℤ × LevelInfo)) (h : k' ≠ k) :
    dict_lookup k (dict_erase k' xs) = dict_lookup k xs := by
  induction xs with
  | nil => rfl
  | cons e es ih =>
    by_cases ha : e.1 = k'
    · simp [dict_erase, dict_lookup, ha, ih, h]
    · simp [dict_erase, dict_lookup, ha, ih]

lemma execute_level_total_position (p : GridParams) (cp cash : ℚ) (gl : List ℚ)
    (s : Strat) (out : List Intent) (l : ℚ) :
    (execute_level p cp cash gl (s, out) l).1.total_position = s.total_position := by
  unfold execute_level
  dsimp only
  split
  · split <;> rfl
  · split
    · split <;> rfl
    · rfl

lemma execute_level_out_spec (p : GridParams) (cp cash : ℚ) (gl : List ℚ)
    (s : Strat) (out : List Intent) (l : ℚ) :
    ∀ i ∈ (execute_level p cp cash gl (s, out) l).2, i ∈ out ∨
      (i.side = Side.Buy ∧ s.total_position < p.max_position) ∨
      (i.side = Side.Sell ∧ i.size ≤ s.total_position) := by
  unfold execute_level
  dsimp only
  split
  next hbuy =>
    split
    next =>
      intro i hi
      rcases List.mem_append.mp hi with h1 | h2
      · exact Or.inl h1
      · have : i = ⟨Side.Buy, _, some l⟩ := List.mem_singleton.mp h2
        subst this
        exact Or.inr (Or.inl ⟨rfl, hbuy.2.2⟩)
    next => exact fun i hi => Or.inl hi
  next =>
    split
    next info heq =>
      split
      next hsell =>
        intro i hi
        rcases List.mem_append.mp hi with h1 | h2
        · exact Or.inl h1
        · have : i = ⟨Side.Sell, info.size, some l⟩ := List.mem_singleton.mp h2
          subst this
          exact Or.inr (Or.inr ⟨rfl, hsell.2⟩)
      next => exact fun i hi => Or.inl hi
    next => exact fun i hi => Or.inl hi

lemma execute_level_lookup_ne (p : GridParams) (cp cash : ℚ) (gl : List ℚ)
    (s : Strat) (out : List Intent) (l : ℚ) (k : ℤ) (hk : level_key l ≠ k) :
    dict_lookup k (execute_level p cp cash gl (s, out) l).1.grid_levels_dict
      = dict_lookup k s.grid_levels_dict := by
  unfold execute_level
  dsimp only
  split
  · split
    · exact dict_lookup_append_single _ _ hk
    · rfl
  · split
    · split
      · exact dict_lookup_erase_ne _ hk
      · rfl
    · rfl

lemma foldl_execute_total_position (p : GridParams) (cp cash : ℚ) (gl : List ℚ) :
    ∀ (ls : List ℚ) (s : Strat) (out : List Intent),
      ((ls.foldl (execute_level p cp cash gl) (s, out)).1.total_position
        = s.total_position) := by
  intro ls
  induction ls with
  | nil => intro s out; rfl
  | cons l ls ih =>
    intro s out
    rw [List.foldl_cons]
    cases hE : execute_level p cp cash gl (s, out) l with
    | mk s1 out1 =>
      have h1 := execute_level_total_position p cp cash gl s out l
      rw [hE] at h1
      rw [ih s1 out1, h1]

lemma foldl_execute_out_spec (p : GridParams) (cp cash : ℚ) (gl : List ℚ) :
    ∀ (ls : List ℚ) (s : Strat) (out : List Intent),
      (∀ i ∈ out, (i.side = Side.Buy → s.total_position < p.max_position) ∧
        (i.side = Side.Sell → i.size ≤ s.total_position)) →
      ∀ i ∈ (ls.foldl (execute_level p cp cash gl) (s, out)).2,
        (i.side = Side.Buy → s.total_position < p.max_position) ∧
        (i.side = Side.Sell → i.size ≤ s.total_position) := by
  intro ls
  induction ls with
  | nil => intro s out h; exact h
  | cons l ls ih =>
    intro s out h
    rw [List.foldl_cons]
    cases hE : execute_level p cp cash gl (s, out) l with
    | mk s1 out1 =>
      have hpos := execute_level_total_position p cp cash gl s out l
      rw [hE] at hpos
      have hstep := execute_level_out_spec p cp cash gl s out l
      rw [hE] at hstep
      have h1 : ∀ i ∈ out1, (i.side = Side.Buy → s1.total_position < p.max_position) ∧
          (i.side = Side.Sell → i.size ≤ s1.total_position) := by
        intro i hi
        rcases hstep i hi with hmem | hb | hs
        · rw [hpos]; exact h i hmem
        · rw [hpos]; exact ⟨fun _ => hb.2, fun hside => absurd (hb.1 ▸ hside) (by simp)⟩
        · rw [hpos]
          refine ⟨fun hside => absurd (hs.1 ▸ hside) (by simp), fun _ => hs.2⟩
      intro i hi
      have := ih s1 out1 h1 i hi
      rw [hpos] at this
      exact this

lemma foldl_execute_lookup_ne (p : GridParams) (cp cash : ℚ) (gl : List ℚ) (k : ℤ) :
    ∀ (ls : List ℚ) (s : Strat) (out : List Intent), (∀ l ∈ ls, level_key l ≠ k) →
      dict_lookup k ((ls.foldl (execute_level p cp cash gl) (s, out)).1.grid_levels_dict)
        = dict_lookup k s.grid_levels_dict := by
  intro ls
  induction ls with
  | nil => intro s out _; rfl
  | cons l ls ih =>
    intro s out h
    rw [List.foldl_cons]
    cases hE : execute_level p cp cash gl (s, out) l with
    | mk s1 out1 =>
      have h1 := execute_level_lookup_ne p cp cash gl s out l k (h l (List.mem_cons_self l ls))
      rw [hE] at h1
      rw [ih s1 out1 (fun x hx => h x (List.mem_cons_of_mem l hx)), h1]

lemma mem_insertSorted {b x : ℚ} {l : List ℚ} :
    b ∈ insertSorted x l ↔ b = x ∨ b ∈ l := by
  induction l with
  | nil => simp [insertSorted]
  | cons y ys ih =>
    by_cases h : x ≤ y
    · simp [insertSorted, h]
    · simp [insertSorted, h, ih]
      tauto

lemma sorted_insertSorted {x : ℚ} {l : List ℚ}
    (h : List.Sorted (fun a b => a ≤ b) l) :
    List.Sorted (fun a b => a ≤ b) (insertSorted x l) := by
  induction l with
  | nil => simp [insertSorted]
  | cons y ys ih =>
    rcases List.sorted_cons.mp h with ⟨hy, hys⟩
    by_cases hxy : x ≤ y
    · rw [insertSorted, if_pos hxy]
      refine List.sorted_cons.mpr ⟨?_, h⟩
      intro b hb
      rcases List.mem_cons.mp hb with hb | hb
      · exact hb ▸ hxy
      · exact le_trans hxy (hy b hb)
    · rw [insertSorted, if_neg hxy]
      refine List.sorted_cons.mpr ⟨?_, ih hys⟩
      intro b hb
      rcases mem_insertSorted.mp hb with hb | hb
      · exact hb ▸ le_of_not_le hxy
      · exact hy b hb

lemma sorted_pySorted (l : List ℚ) :
    List.Sorted (fun a b => a ≤ b) (pySorted l) := by
  induction l with
  | nil => simp [pySorted]
  | cons x xs ih => exact sorted_insertSorted ih

lemma execute_level_empty (p : GridParams) (cp cash : ℚ) (gl : List ℚ)
    (s : Strat) (out : List Intent) (level : ℚ)
    (hempty : dict_lookup (level_key level) s.grid_levels_dict = none) :
    (((execute_level p cp cash gl (s, out) level).2
        = out ++ [⟨Side.Buy, calculate_order_size p (buy_level_index p gl level),
            some level⟩])
      ↔ (cp ≤ level * (1005/1000) ∧ s.total_position < p.max_position ∧
          level * calculate_order_size p (buy_level_index p gl level) ≤ cash)) ∧
    (¬ (cp ≤ level * (1005/1000) ∧ s.total_position < p.max_position ∧
          level * calculate_order_size p (buy_level_index p gl level) ≤ cash) →
      execute_level p cp cash gl (s, out) level = (s, out)) := by
  unfold execute_level
  dsimp only
  rw [hempty]
  by_cases hc1 : cp ≤ level * (1005/1000) ∧ ((none : Option LevelInfo) = none) ∧
      s.total_position < p.max_position
  · rw [if_pos hc1]
    by_cases hc3 : level * calculate_order_size p (buy_level_index p gl level) ≤ cash
    · rw [if_pos hc3]
      exact ⟨⟨fun _ => ⟨hc1.1, hc1.2.2, hc3⟩, fun _ => rfl⟩,
        fun hn => absurd ⟨hc1.1, hc1.2.2, hc3⟩ hn⟩
    · rw [if_neg hc3]
      refine ⟨⟨fun heq => ?_, fun hcond => absurd hcond.2.2 hc3⟩, fun _ => rfl⟩
      exfalso
      have hlen := congrArg List.length heq
      simp at hlen
  · rw [if_neg hc1]
    refine ⟨⟨fun heq => ?_, fun hcond => absurd ⟨hcond.1, rfl, hcond.2.1⟩ hc1⟩,
      fun _ => rfl⟩
    exfalso
    have hlen := congrArg List.length heq
    simp at hlen

lemma execute_level_occupied (p : GridParams) (cp cash : ℚ) (gl : List ℚ)
    (s : Strat) (out : List Intent) (level : ℚ) (info : LevelInfo)
    (hocc : dict_lookup (level_key level) s.grid_levels_dict = some info) :
    (((execute_level p cp cash gl (s, out) level).2
        = out ++ [⟨Side.Sell, info.size, some level⟩])
      ↔ (level * (1 + p.take_profit_pct) ≤ cp ∧ info.size ≤ s.total_position)) ∧
    (¬ (level * (1 + p.take_profit_pct) ≤ cp ∧ info.size ≤ s.total_position) →
      execute_level p cp cash gl (s, out) level = (s, out)) := by
  unfold execute_level
  dsimp only
  rw [hocc]
  have hfalse : ¬ (cp ≤ level * (1005/1000) ∧
      ((some info : Option LevelInfo) = none) ∧
      s.total_position < p.max_position) := by
    rintro ⟨-, h2, -⟩
    cases h2
  rw [if_neg hfalse]
  dsimp only
  by_cases hc : level * (1 + p.take_profit_pct) ≤ cp ∧ info.size ≤ s.total_position
  · rw [if_pos hc]
    exact ⟨⟨fun _ => hc, fun _ => rfl⟩, fun hn => absurd hc hn⟩
  · rw [if_neg hc]
    refine ⟨⟨fun heq => ?_, fun hcond => absurd hcond hc⟩, fun _ => rfl⟩
    exfalso
    have hlen := congrArg List.length heq
    simp at hlen

/-! Concrete scenario constants used by the claim theorems below. -/

/-- Static-grid parameter set: spacing 500 USD, 4 grid levels, base order
0.01 BTC, martingale factor 1.2, max position 0.5 BTC, take-profit 2%,
stop-loss 15%. -/
def P4 : GridParams := ⟨500, 4, 1/100, 6/5, 1/2, 1/50, 3/20, false⟩

/-- P4 with `take_profit_pct = 0.01`, the value used in the spec's concrete
exit example. -/
def P7 : GridParams := ⟨500, 4, 1/100, 6/5, 1/2, 1/100, 3/20, false⟩

/-- P4 with `dynamic_grid = true`. -/
def PDyn : GridParams := ⟨500, 4, 1/100, 6/5, 1/2, 1/50, 3/20, true⟩

/-- `DynamicBTCGridStrategy` params: `grid_spacing = 300`,
`volatility_factor = 2`. -/
def dynP : DynParams := ⟨300, 2⟩

/-- The static P4 grid around close 60000:
`[59000, 59500, 60000, 60500, 61000]`. -/
def GL4 : List ℚ := (calculate_grid_levels P4 0 0 0 60000).1

/-- Fresh strategy state: no occupied levels, flat position. -/
def S0 : Strat := ⟨[], [], 0, 0, none, 1⟩

/-- State with `total_position = 0.499`, just below `max_position = 0.5`. -/
def S499 : Strat := ⟨[], [], 499/1000, 60000, some 10000, 1⟩

/-- State holding one filled level at 59500 (size 0.01). -/
def S3 : Strat := ⟨[(59500, ⟨59500, 1/100, 7⟩)], [], 1/100, 59500, some 10000, 8⟩

/-- State holding one filled level at 59500 (size 0.01), order ref 1. -/
def S7 : Strat := ⟨[(59500, ⟨59500, 1/100, 1⟩)], [1], 1/100, 59500, some 10000, 2⟩

/-- State holding one filled level at 59500 with a 0.1 BTC position, used for
the drawdown-breach scenario. -/
def S4 : Strat := ⟨[(59500, ⟨59500, 1/100, 3⟩)], [3], 1/10, 59500, some 10000, 4⟩

/-- State holding one filled level at 59500, flat position. -/
def S9 : Strat := ⟨[(59500, ⟨59500, 1/100, 3⟩)], [3], 0, 0, some 10000, 4⟩


/-- Ten recorded volatility samples of 600. -/
def volHist10 : List ℚ := [600, 600, 600, 600, 600, 600, 600, 600, 600, 600]

/-- Only nine recorded volatility samples: still in the warm-up window. -/
def volHist9 : List ℚ := [600, 600, 600, 600, 600, 600, 600, 600, 600]

/-- Ten huge volatility samples, driving the spacing into the upper clamp. -/
def volHistHigh : List ℚ :=
  [600000, 600000, 600000, 600000, 600000, 600000, 600000, 600000, 600000, 600000]

/-- Ten (mathematically) negative samples, driving the spacing into the lower
clamp. -/
def volHistNeg : List ℚ :=
  [-30000, -30000, -30000, -30000, -30000, -30000, -30000, -30000, -30000, -30000]

/-- State with a filled level at 59500 whose recorded size 0.1 exceeds the
current total position 0.01. -/
def S10 : Strat := ⟨[(59500, ⟨59500, 1/10, 1⟩)], [1], 1/100, 59500, some 10000, 2⟩

/-! Evaluation lemmas: closed-form results of the embedded functions on the
concrete scenarios, proved by numeric normalisation. -/

lemma rat_abs_ite (q : ℚ) : |q| = if 0 ≤ q then q else -q := by
  by_cases h : 0 ≤ q
  · rw [if_pos h, abs_of_nonneg h]
  · rw [if_neg h, abs_of_neg (lt_of_not_le h)]

lemma level_key_int (n : ℤ) : level_key (n : ℚ) = n := by
  unfold level_key
  rw [Int.floor_intCast, sub_self, if_neg (by norm_num), round_intCast]

lemma level_key_ofNat (n : ℕ) [n.AtLeastTwo] :
    level_key (no_index (OfNat.ofNat n) : ℚ) = OfNat.ofNat n := by
  have h : (OfNat.ofNat n : ℚ) = ((OfNat.ofNat n : ℤ) : ℚ) := by norm_cast
  rw [h, level_key_int]

lemma calc_grid_P4_60000 :
    calculate_grid_levels P4 0 0 0 60000 = ([59000, 59500, 60000, 60500, 61000], 500) := by
  norm_num [calculate_grid_levels, grid_center_spacing, intRange, pySorted, insertSorted, P4,
    List.range_succ, List.filterMap_cons,
    show Int.fdiv (-(4:ℤ)) 2 = -2 from by decide,
    show Int.fdiv (4:ℤ) 2 = 2 from by decide,
    show Int.toNat 5 = 5 from rfl]

lemma GL4_eq : GL4 = [59000, 59500, 60000, 60500, 61000] := by
  unfold GL4
  rw [calc_grid_P4_60000]

lemma calc_grid_PDyn_shift :
    calculate_grid_levels PDyn 50 61500 0 62500
      = ([60500, 61000, 61500, 62000, 62500], 500) := by
  norm_num [calculate_grid_levels, grid_center_spacing, intRange, pySorted, insertSorted, PDyn,
    List.range_succ, List.filterMap_cons, max_def,
    show Int.fdiv (-(4:ℤ)) 2 = -2 from by decide,
    show Int.fdiv (4:ℤ) 2 = 2 from by decide,
    show Int.toNat 5 = 5 from rfl]

lemma exec_S499_eval :
    execute_grid_orders P4 60000 1000000 GL4 S499
      = (⟨[(60000, ⟨60000, 1/100, 1⟩), (60500, ⟨60500, 3/250, 2⟩),
           (61000, ⟨61000, 9/625, 3⟩)], [1, 2, 3], 499/1000, 60000, some 10000, 4⟩,
         [⟨Side.Buy, 1/100, some 60000⟩, ⟨Side.Buy, 3/250, some 60500⟩,
          ⟨Side.Buy, 9/625, some 61000⟩]) := by
  rw [GL4_eq]
  norm_num [execute_grid_orders, execute_level, dict_lookup, buy_level_index,
    calculate_order_size, P4, S499, rat_abs_ite, List.filter_cons, decide_eq_true_eq,
    level_key_ofNat,
    show Int.fdiv (4:ℤ) 2 = 2 from by decide,
    show Int.toNat 1 = 1 from rfl, show Int.toNat 2 = 2 from rfl]

lemma exec_S0_eval :
    execute_grid_orders P4 60000 1000000 GL4 S0
      = (⟨[(60000, ⟨60000, 1/100, 1⟩), (60500, ⟨60500, 3/250, 2⟩),
           (61000, ⟨61000, 9/625, 3⟩)], [1, 2, 3], 0, 0, none, 4⟩,
         [⟨Side.Buy, 1/100, some 60000⟩, ⟨Side.Buy, 3/250, some 60500⟩,
          ⟨Side.Buy, 9/625, some 61000⟩]) := by
  rw [GL4_eq]
  norm_num [execute_grid_orders, execute_level, dict_lookup, buy_level_index,
    calculate_order_size, P4, S0, rat_abs_ite, List.filter_cons, decide_eq_true_eq,
    level_key_ofNat,
    show Int.fdiv (4:ℤ) 2 = 2 from by decide,
    show Int.toNat 1 = 1 from rfl, show Int.toNat 2 = 2 from rfl]

lemma exec_C6_eval :
    (execute_grid_orders P4 60400 1000000 GL4 S0).2
      = [⟨Side.Buy, 3/250, some 60500⟩, ⟨Side.Buy, 9/625, some 61000⟩] := by
  rw [GL4_eq]
  norm_num [execute_grid_orders, execute_level, dict_lookup, buy_level_index,
    calculate_order_size, P4, S0, rat_abs_ite, List.filter_cons, decide_eq_true_eq,
    level_key_ofNat,
    show Int.fdiv (4:ℤ) 2 = 2 from by decide,
    show Int.toNat 1 = 1 from rfl, show Int.toNat 2 = 2 from rfl]

lemma exec_C7_eval : execute_grid_orders P7 59600 0 GL4 S7 = (S7, []) := by
  rw [GL4_eq]
  norm_num [execute_grid_orders, execute_level, dict_lookup, buy_level_index,
    calculate_order_size, P7, S7, rat_abs_ite, List.filter_cons, decide_eq_true_eq,
    level_key_ofNat,
    show Int.fdiv (4:ℤ) 2 = 2 from by decide,
    show Int.toNat 1 = 1 from rfl, show Int.toNat 2 = 2 from rfl]

lemma exec_S3_eval :
    execute_grid_orders PDyn 62500 0 (calculate_grid_levels PDyn 50 61500 0 62500).1 S3
      = (S3, []) := by
  rw [calc_grid_PDyn_shift]
  norm_num [execute_grid_orders, execute_level, dict_lookup, buy_level_index,
    calculate_order_size, PDyn, S3, rat_abs_ite, List.filter_cons, decide_eq_true_eq,
    level_key_ofNat,
    show Int.fdiv (4:ℤ) 2 = 2 from by decide,
    show Int.toNat 1 = 1 from rfl, show Int.toNat 2 = 2 from rfl]

lemma nextBar_S4_eval :
    nextBar P4 0 0 0 60000 8400 5000 S4 = (S4, [⟨Side.Sell, 1/10, none⟩]) := by
  norm_num [nextBar, S4, P4]

lemma notify_first_buy_eval :
    notify_order ⟨[], [], 0, 0, some 10000, 1⟩
        ⟨OrderStatus.Completed, Side.Buy, 60000, 1/100, 5⟩
      = ⟨[], [], 0, 60000, some 10000, 1⟩ := by
  norm_num [notify_order, update_avg_buy_price]
  exact ⟨by decide, by decide⟩

lemma dynspace_price60000 : calculate_dynamic_spacing dynP volHist10 60000 = 306 := by
  norm_num [calculate_dynamic_spacing, dynP, volHist10, max_def, min_def]

lemma dynspace_price30000 : calculate_dynamic_spacing dynP volHist10 30000 = 312 := by
  norm_num [calculate_dynamic_spacing, dynP, volHist10, max_def, min_def]

lemma dynspace_warmup : calculate_dynamic_spacing dynP volHist9 60000 = 300 := by
  norm_num [calculate_dynamic_spacing, dynP, volHist9]

lemma dynspace_high_clamp : calculate_dynamic_spacing dynP volHistHigh 60000 = 1000 := by
  norm_num [calculate_dynamic_spacing, dynP, volHistHigh, max_def, min_def]

lemma dynspace_low_clamp : calculate_dynamic_spacing dynP volHistNeg 60000 = 100 := by
  norm_num [calculate_dynamic_spacing, dynP, volHistNeg, max_def, min_def]

lemma gridpy_eval : gridpy_buy_levels 60000 100 5 = [59900, 59800, 59700, 59600, 59500] := by
  norm_num [gridpy_buy_levels, List.range_succ]

/-! Claim theorems. -/

/-- C1: the claim states that a confirmed buy fill of `qty` at price `p` from
a flat position makes the average entry price `p` and `total_position = qty`.
The code violates the position half: `update_avg_buy_price` (called from
`notify_order` on a completed buy) only assigns `avg_buy_price` in its
`total_position == 0` branch and never adds `new_size`, so after the first
confirmed buy fill (price 60000, qty 0.01) the position is still 0, not 0.01.
Every later buy fill therefore again takes the zero branch, so buys never
increase `total_position` at all — while the code's own sell path
(`total_position -= size` in `notify_order`) and its `total_position >=
sell_size` / `< max_position` guards clearly expect it to track holdings.
The `pos > 0` average formula and the sell update do match the claim; the
flat-position case is a slip in the code. -/
theorem C1_first_buy_fill_keeps_position_zero :
    (notify_order ⟨[], [], 0, 0, some 10000, 1⟩
        ⟨OrderStatus.Completed, Side.Buy, 60000, 1/100, 5⟩).total_position = 0 ∧
    (notify_order ⟨[], [], 0, 0, some 10000, 1⟩
        ⟨OrderStatus.Completed, Side.Buy, 60000, 1/100, 5⟩).avg_buy_price = 60000 ∧
    ((1:ℚ)/100 ≠ 0) := by
  rw [notify_first_buy_eval]
  norm_num

/-- C2 (counterexample): with `max_position = 0.5` and `total_position =
0.499`, the bar at close 60000 emits a BUY of size 0.01 although
`0.499 + 0.01 > 0.5` — the claimed rejection condition
`total_position + size > max_position` is not what the code checks, so a fill
can push the position above `max_position`. -/
theorem C2_counterexample :
    (⟨Side.Buy, 1/100, some 60000⟩ : Intent) ∈
      (execute_grid_orders P4 60000 1000000 GL4 S499).2 ∧
    ¬ ((499:ℚ)/1000 + 1/100 ≤ P4.max_position) := by
  constructor
  · simp [exec_S499_eval]
  · norm_num [P4]

/-- C2 (amended): the capacity guard the code applies is
`total_position < max_position`, evaluated before each entry and ignoring the
intended order size: every BUY intent emitted by `execute_grid_orders` comes
from a state with `total_position < max_position`, and nothing stronger
holds — in particular `total_position ≤ max_position` is not an invariant of
the fill ledger. -/
theorem C2_buy_only_below_max_position (p : GridParams) (cp cash : ℚ)
    (gl : List ℚ) (s : Strat) :
    ∀ i ∈ (execute_grid_orders p cp cash gl s).2, i.side = Side.Buy →
      s.total_position < p.max_position := by
  intro i hi hside
  simp only [execute_grid_orders] at hi
  exact (foldl_execute_out_spec p cp cash gl _ s []
    (by intro j hj; cases hj) i hi).1 hside

/-- C2 (witness): the amended theorem applied to the counterexample bar. -/
theorem C2_witness :
    ((⟨Side.Buy, 1/100, some 60000⟩ : Intent) ∈
      (execute_grid_orders P4 60000 1000000 GL4 S499).2) ∧
    S499.total_position < P4.max_position :=
  ⟨by simp [exec_S499_eval],
   C2_buy_only_below_max_position P4 60000 1000000 GL4 S499
     ⟨Side.Buy, 1/100, some 60000⟩ (by simp [exec_S499_eval]) rfl⟩

/-- C3 (counterexample): levels are identified by the rounded price, not by a
stable integer index.  A level filled at 59500 (size 0.01) is held in the
dict; when the grid recentres to 61500 the freshly generated level keys are
{60500, ..., 62500} — none matches 59500 — so on a bar at close 62500, where
the claimed exit condition for the occupied level holds (62500 ≥ 59500·1.02),
the loop emits no intent at all: the occupied level is lost to evaluation as
soon as the center shifts, contrary to the claim that occupied levels are
never lost across regenerations. -/
theorem C3_counterexample :
    (59500 * (1 + PDyn.take_profit_pct) ≤ (62500:ℚ)) ∧
    ((calculate_grid_levels PDyn 50 61500 0 62500).1.map level_key
      = [60500, 61000, 61500, 62000, 62500]) ∧
    ((59500:ℤ) ∉ ([60500, 61000, 61500, 62000, 62500] : List ℤ)) ∧
    (execute_grid_orders PDyn 62500 0 (calculate_grid_levels PDyn 50 61500 0 62500).1 S3
      = (S3, [])) ∧
    dict_lookup 59500 S3.grid_levels_dict = some ⟨59500, 1/100, 7⟩ := by
  refine ⟨by norm_num [PDyn], ?_, by decide, exec_S3_eval, by simp [S3, dict_lookup]⟩
  simp only [calc_grid_PDyn_shift]
  simp [level_key_ofNat]

/-- C3 (amended): what the code does preserve — `execute_grid_orders` neither
reprices nor deletes a dict entry whose key matches none of the levels it was
given: the occupied entry is carried over with its recorded price and size
verbatim (but, per the counterexample, it is also invisible to buy/sell
evaluation while orphaned). -/
theorem C3_orphaned_entry_carried_over (p : GridParams) (cp cash : ℚ)
    (gl : List ℚ) (s : Strat) (k : ℤ) (hk : ∀ l ∈ gl, level_key l ≠ k) :
    dict_lookup k (execute_grid_orders p cp cash gl s).1.grid_levels_dict
      = dict_lookup k s.grid_levels_dict := by
  simp only [execute_grid_orders]
  exact foldl_execute_lookup_ne p cp cash gl k _ s []
    (fun l hl => hk l (List.mem_of_mem_filter hl))

/-- C3 (witness): the amended theorem applied to the shifted-grid scenario. -/
theorem C3_witness :
    dict_lookup 59500 (execute_grid_orders PDyn 62500 0
        (calculate_grid_levels PDyn 50 61500 0 62500).1 S3).1.grid_levels_dict
      = dict_lookup 59500 S3.grid_levels_dict :=
  C3_orphaned_entry_carried_over PDyn 62500 0 _ S3 59500 (by
    simp only [calc_grid_PDyn_shift]
    intro l hl
    fin_cases hl <;> rw [level_key_ofNat] <;> decide)

/-- C4 (counterexample): on the breach bar (initial equity 10000, equity 8400,
drawdown −16% < −15%, position 0.1 with one occupied level), the engine
leaves `grid_levels_dict` untouched: the per-level occupancy map does not
become all-Empty as the claim states — the stop-loss branch of `next` only
issues the liquidation sell and returns. -/
theorem C4_counterexample :
    (nextBar P4 0 0 0 60000 8400 5000 S4).1.grid_levels_dict
      = [(59500, ⟨59500, 1/100, 3⟩)] ∧
    (([(59500, (⟨59500, 1/100, 3⟩ : LevelInfo))] : List (ℤ × LevelInfo)) ≠ []) ∧
    ((8400 - 10000 : ℚ) / 10000 < -P4.stop_loss_pct) ∧
    0 < S4.total_position := by
  refine ⟨?_, by simp, by norm_num [P4], by norm_num [S4]⟩
  rw [nextBar_S4_eval]
  simp [S4]

/-- C4 (amended): on every breach bar — captured initial equity `init`,
drawdown `(value - init)/init < -stop_loss_pct`, positive position — the
engine emits exactly one liquidation SELL sized to `total_position` and no BUY
intents, the occupancy map is left unchanged (not cleared), and once the
broker confirms that sell the position is 0, making the breach guard false on
the next bar. -/
theorem C4_breach_liquidation (p : GridParams) (s : Strat) (sma_len : ℕ)
    (sma atr close value cash init : ℚ) (r : ℕ)
    (hinit : s.initial_cash = some init)
    (hpos : 0 < s.total_position)
    (hdd : (value - init) / init < -p.stop_loss_pct) :
    (nextBar p sma_len sma atr close value cash s).2
        = [⟨Side.Sell, s.total_position, none⟩] ∧
    (∀ i ∈ (nextBar p sma_len sma atr close value cash s).2, i.side ≠ Side.Buy) ∧
    (nextBar p sma_len sma atr close value cash s).1.grid_levels_dict
        = s.grid_levels_dict ∧
    (notify_order (nextBar p sma_len sma atr close value cash s).1
        ⟨OrderStatus.Completed, Side.Sell, close, s.total_position, r⟩).total_position
      = 0 := by
  have hbar : nextBar p sma_len sma atr close value cash s
      = ({ s with initial_cash := some init }, [⟨Side.Sell, s.total_position, none⟩]) := by
    unfold nextBar
    rw [hinit]
    simp only [Option.getD_some]
    rw [if_pos ⟨hpos, hdd⟩]
  rw [hbar]
  refine ⟨rfl, ?_, rfl, ?_⟩
  · intro i hi
    rcases List.mem_singleton.mp hi with rfl
    simp
  · simp [notify_order, sub_self]

/-- C4 (witness): the amended theorem applied to the 10000 / 8400 scenario. -/
theorem C4_witness :
    (nextBar P4 0 0 0 60000 8400 5000 S4).2 = [⟨Side.Sell, S4.total_position, none⟩] ∧
    (notify_order (nextBar P4 0 0 0 60000 8400 5000 S4).1
        ⟨OrderStatus.Completed, Side.Sell, 60000, S4.total_position, 9⟩).total_position
      = 0 := by
  have h := C4_breach_liquidation P4 S4 0 0 0 60000 8400 5000 10000 9 rfl
    (by norm_num [S4]) (by norm_num [P4])
  exact ⟨h.1, h.2.2.2⟩

/-- C5 (counterexample): `calculate_grid_levels` iterates Python's
`range(-4 // 2, 4 // 2 + 1) = {-2, -1, 0, 1, 2}`, which contains index 0, so
for center 60000 / spacing 500 / 4 levels the output contains the center price
60000 itself and is not the claimed four-element list. -/
theorem C5_counterexample :
    (60000:ℚ) ∈ (calculate_grid_levels P4 0 0 0 60000).1 ∧
    (calculate_grid_levels P4 0 0 0 60000).1 ≠ [59000, 59500, 60500, 61000] := by
  constructor
  · simp [calc_grid_P4_60000]
  · simp only [calc_grid_P4_60000]
    intro h
    have hlen := congrArg List.length h
    simp at hlen

/-- C5 (amended): the index range is `⌊-n/2⌋ .. ⌊n/2⌋` inclusive — it contains
0 (and for odd `n` is asymmetric, e.g. n = 5 gives −3..2); prices are
`center + i * spacing` filtered to positive values and returned ascending, so
center 60000 / spacing 500 / n = 4 yields the five levels 59000, 59500,
60000, 60500, 61000 with spacing 500. -/
theorem C5_grid_generation :
    calculate_grid_levels P4 0 0 0 60000
      = ([59000, 59500, 60000, 60500, 61000], 500) ∧
    intRange (Int.fdiv (-(4:ℤ)) 2) (Int.fdiv 4 2) = [-2, -1, 0, 1, 2] ∧
    intRange (Int.fdiv (-(5:ℤ)) 2) (Int.fdiv 5 2) = [-3, -2, -1, 0, 1, 2] := by
  exact ⟨calc_grid_P4_60000, by decide, by decide⟩

/-- C6 (counterexample): on a bar with low 59300 and close 60400, the claimed
entry condition holds for the Empty level 59500 (`59300 ≤ 59500 · 1.005`), yet
the bar's output contains no BUY for 59500 — only for 60500 and 61000 — the
code compares the close, not the low, against the level.  Additionally, the
other cited implementation (`strategy/grid.py`) walks its buy levels in
descending price order: its grid for start 60000 / space 100 / 5 layers is
the descending list [59900, ..., 59500], against the claimed ascending
processing. -/
theorem C6_counterexample :
    ((59300:ℚ) ≤ 59500 * (1005/1000)) ∧
    ((execute_grid_orders P4 60400 1000000 GL4 S0).2
      = [⟨Side.Buy, 3/250, some 60500⟩, ⟨Side.Buy, 9/625, some 61000⟩]) ∧
    gridpy_buy_levels 60000 100 5 = [59900, 59800, 59700, 59600, 59500] := by
  exact ⟨by norm_num, exec_C6_eval, gridpy_eval⟩

/-- C6 (amended): for a level whose key is unoccupied, the per-level loop body
emits a BUY (sized by the inline martingale index) exactly when
`close ≤ level * 1.005`, `total_position < max_position` and
`cash ≥ level * size` all hold; when any fails the state is returned
unchanged, so the level stays Empty and is re-evaluated on later bars.  The
level lists produced by `calculate_grid_levels` are ascending (the loop runs
over a filtered, order-preserving sublist of them). -/
theorem C6_entry_rule :
    (∀ (p : GridParams) (cp cash : ℚ) (gl : List ℚ) (s : Strat) (out : List Intent)
      (level : ℚ), dict_lookup (level_key level) s.grid_levels_dict = none →
      (((execute_level p cp cash gl (s, out) level).2
          = out ++ [⟨Side.Buy, calculate_order_size p (buy_level_index p gl level),
              some level⟩])
        ↔ (cp ≤ level * (1005/1000) ∧ s.total_position < p.max_position ∧
            level * calculate_order_size p (buy_level_index p gl level) ≤ cash)) ∧
      (¬ (cp ≤ level * (1005/1000) ∧ s.total_position < p.max_position ∧
            level * calculate_order_size p (buy_level_index p gl level) ≤ cash) →
        execute_level p cp cash gl (s, out) level = (s, out))) ∧
    (∀ (p : GridParams) (n : ℕ) (sma atr c : ℚ),
      List.Sorted (fun a b => a ≤ b) (calculate_grid_levels p n sma atr c).1) := by
  constructor
  · intro p cp cash gl s out level hempty
    exact execute_level_empty p cp cash gl s out level hempty
  · intro p n sma atr c
    exact sorted_pySorted _

/-- C6 (witness): the amended rule applied to the Empty level 60000 on a bar
at close 60000 with ample cash — the BUY is emitted. -/
theorem C6_witness :
    (execute_level P4 60000 1000000 GL4 (S0, []) 60000).2
      = [] ++ [⟨Side.Buy, calculate_order_size P4 (buy_level_index P4 GL4 60000),
          some 60000⟩] :=
  ((C6_entry_rule.1 P4 60000 1000000 GL4 S0 [] 60000 rfl).1).mpr (by
    refine ⟨by norm_num, by norm_num [S0, P4], ?_⟩
    rw [GL4_eq]
    norm_num [buy_level_index, calculate_order_size, P4, List.filter_cons,
      decide_eq_true_eq, show Int.fdiv (4:ℤ) 2 = 2 from by decide])

/-- C7 (counterexample): with `take_profit_pct = 0.01` and a level filled at
59500, a bar with high 60100 and close 59600 satisfies the claimed exit
condition (`60100 ≥ 60095`), yet the engine emits nothing — the code compares
the close, not the high, against the target (and 59600 < 60095). -/
theorem C7_counterexample :
    (59500 * (1 + P7.take_profit_pct) ≤ (60100:ℚ)) ∧
    (¬ (59500 * (1 + P7.take_profit_pct) ≤ (60050:ℚ))) ∧
    execute_grid_orders P7 59600 0 GL4 S7 = (S7, []) := by
  exact ⟨by norm_num [P7], by norm_num [P7], exec_C7_eval⟩

/-- C7 (amended): for a level whose key is occupied with recorded entry
`info`, the per-level loop body emits a SELL of exactly `info.size` precisely
when `close ≥ level * (1 + take_profit_pct)` and
`total_position ≥ info.size`; otherwise the state is unchanged.  With
`take_profit_pct = 0.01` and the level at 59500, close 60050 does not trigger
the exit (target 60095) and close 60100 does. -/
theorem C7_exit_uses_close (p : GridParams) (cp cash : ℚ) (gl : List ℚ)
    (s : Strat) (out : List Intent) (level : ℚ) (info : LevelInfo)
    (hocc : dict_lookup (level_key level) s.grid_levels_dict = some info) :
    (((execute_level p cp cash gl (s, out) level).2
        = out ++ [⟨Side.Sell, info.size, some level⟩])
      ↔ (level * (1 + p.take_profit_pct) ≤ cp ∧ info.size ≤ s.total_position)) ∧
    (¬ (level * (1 + p.take_profit_pct) ≤ cp ∧ info.size ≤ s.total_position) →
      execute_level p cp cash gl (s, out) level = (s, out)) :=
  execute_level_occupied p cp cash gl s out level info hocc

/-- C7 (witness): the amended rule at the filled level 59500 with
`take_profit_pct = 0.01`: close 60100 emits the SELL of the recorded size,
close 60050 leaves the state untouched. -/
theorem C7_witness :
    ((execute_level P7 60100 0 GL4 (S7, []) 59500).2
      = [] ++ [⟨Side.Sell, 1/100, some 59500⟩]) ∧
    (execute_level P7 60050 0 GL4 (S7, []) 59500 = (S7, [])) := by
  constructor
  · exact ((C7_exit_uses_close P7 60100 0 GL4 S7 [] 59500 ⟨59500, 1/100, 1⟩
      (by simp [S7, dict_lookup, level_key_ofNat])).1).mpr
      ⟨by norm_num [P7], by norm_num [S7]⟩
  · exact (C7_exit_uses_close P7 60050 0 GL4 S7 [] 59500 ⟨59500, 1/100, 1⟩
      (by simp [S7, dict_lookup, level_key_ofNat])).2 (by
        rintro ⟨h, -⟩
        norm_num [P7] at h)

/-- C8 (counterexample): the claimed spacing formula
`clamp(base_spacing + V * volatility_multiplier, min_spacing, max_spacing)`
depends, for a fixed configuration, only on the volatility value `V`.  The
code's `calculate_dynamic_spacing` divides the recent volatility by the
current price: with an identical volatility history (ten samples of 600) it
returns 306 at close 60000 but 312 at close 30000, so no fixed
`volatility_multiplier / min_spacing / max_spacing` makes the claimed formula
reproduce it. -/
theorem C8_counterexample :
    calculate_dynamic_spacing dynP volHist10 60000 = 306 ∧
    calculate_dynamic_spacing dynP volHist10 30000 = 312 ∧
    ((306:ℚ) ≠ 312) := by
  exact ⟨dynspace_price60000, dynspace_price30000, by norm_num⟩

/-- C8 (amended): the center half of the claim matches the code — dynamic
mode centers on the SMA once warmed up and falls back to the current close
before that (with the base-class spacing `max(grid_spacing, 2·ATR)`); the
spacing of the dynamic subclass is instead
`grid_spacing * (1 + (mean of the last 10 volatility samples / close) *
volatility_factor)`, clamped into the hard-coded interval [100, 1000], and
equals the plain `grid_spacing` until 10 samples have been recorded (shown on
concrete runs, including both clamp ends). -/
theorem C8_center_and_spacing :
    (∀ (p : GridParams) (sma_len : ℕ) (sma atr cp : ℚ), p.dynamic_grid = true →
      0 < sma_len →
      grid_center_spacing p sma_len sma atr cp
        = (sma, max p.grid_spacing (atr * 2))) ∧
    (∀ (p : GridParams) (sma atr cp : ℚ),
      grid_center_spacing p 0 sma atr cp = (cp, p.grid_spacing)) ∧
    calculate_dynamic_spacing dynP volHist9 60000 = 300 ∧
    calculate_dynamic_spacing dynP volHistHigh 60000 = 1000 ∧
    calculate_dynamic_spacing dynP volHistNeg 60000 = 100 := by
  refine ⟨?_, ?_, dynspace_warmup, dynspace_high_clamp, dynspace_low_clamp⟩
  · intro p n sma atr cp hd hn
    unfold grid_center_spacing
    rw [if_pos ⟨hd, hn⟩]
  · intro p sma atr cp
    unfold grid_center_spacing
    have hne : ¬ (p.dynamic_grid = true ∧ 0 < (0:ℕ)) := by
      rintro ⟨-, h⟩
      exact absurd h (lt_irrefl 0)
    rw [if_neg hne]

/-- C8 (witness): the center rule of the amended theorem applied to a
warmed-up dynamic bar (SMA 61500, ATR 200). -/
theorem C8_witness :
    grid_center_spacing PDyn 50 61500 200 60000
      = (61500, max PDyn.grid_spacing (200 * 2)) :=
  C8_center_and_spacing.1 PDyn 50 61500 200 60000 rfl (by decide)

/-- C9 (counterexample): a level's dict entry is written when the entry order
is *placed*, and `notify_order` never touches `grid_levels_dict`: starting
flat, the bar at close 60000 places a buy for level 60000 (order ref 1) and
marks it occupied; after the broker rejects that order the level is still
occupied — it does not revert to its pre-request Empty state, so it is never
again eligible for entry (and its sell branch can later fire for a position
that was never acquired). -/
theorem C9_counterexample :
    dict_lookup 60000 (notify_order (execute_grid_orders P4 60000 1000000 GL4 S0).1
        ⟨OrderStatus.Rejected, Side.Buy, 0, 0, 1⟩).grid_levels_dict
      = some ⟨60000, 1/100, 1⟩ ∧
    dict_lookup 60000 S0.grid_levels_dict = none := by
  constructor
  · rw [show (execute_grid_orders P4 60000 1000000 GL4 S0).1
        = ⟨[(60000, ⟨60000, 1/100, 1⟩), (60500, ⟨60500, 3/250, 2⟩),
            (61000, ⟨61000, 9/625, 3⟩)], [1, 2, 3], 0, 0, none, 4⟩ from
      congrArg Prod.fst exec_S0_eval]
    simp [notify_order, dict_lookup]
  · rfl

/-- C9 (amended): on a canceled / margin / rejected order, `notify_order`
only logs and removes the order from `active_orders`; neither the occupancy
map nor the position ledger is reverted: a rejected entry leaves its level
marked occupied (never again eligible for entry) and a rejected exit leaves
the level deleted (it was removed when the sell was placed), rather than the
claimed reversion to the pre-request state. -/
theorem C9_rejected_order_no_state_revert (s : Strat) (o : BtOrder)
    (h : o.status = OrderStatus.Canceled ∨ o.status = OrderStatus.Margin ∨
      o.status = OrderStatus.Rejected) :
    (notify_order s o).grid_levels_dict = s.grid_levels_dict ∧
    (notify_order s o).total_position = s.total_position ∧
    (notify_order s o).active_orders = s.active_orders.filter (fun r => r != o.ref) := by
  have h1 : ¬ (o.status = OrderStatus.Submitted ∨ o.status = OrderStatus.Accepted) := by
    rintro (h2 | h2) <;> rcases h with h | h | h <;> rw [h2] at h <;> cases h
  have h2 : o.status ≠ OrderStatus.Completed := by
    intro h2
    rcases h with h | h | h <;> rw [h2] at h <;> cases h
  unfold notify_order
  rw [if_neg h1, if_neg h2]
  exact ⟨rfl, rfl, rfl⟩

/-- C9 (witness): the amended theorem applied to a rejected order on a state
holding one occupied level. -/
theorem C9_witness :
    (notify_order S9 ⟨OrderStatus.Rejected, Side.Buy, 0, 0, 3⟩).grid_levels_dict
      = S9.grid_levels_dict :=
  (C9_rejected_order_no_state_revert S9 ⟨OrderStatus.Rejected, Side.Buy, 0, 0, 3⟩
    (Or.inr (Or.inr rfl))).1

/-- C10: every grid SELL intent emitted on a bar is bounded by the
`total_position` at the start of the bar (the code only sells a level's
recorded size when `total_position >= sell_size`), and for an occupied level
whose recorded size exceeds the current position the loop body leaves both
the output and the whole state — in particular the occupancy record —
unchanged, so the exit is simply re-evaluated on a later bar. -/
theorem C10_no_oversell (p : GridParams) (cp cash : ℚ) (gl : List ℚ) (s : Strat) :
    (∀ i ∈ (execute_grid_orders p cp cash gl s).2, i.side = Side.Sell →
      i.size ≤ s.total_position) ∧
    (∀ (out : List Intent) (level : ℚ) (info : LevelInfo),
      dict_lookup (level_key level) s.grid_levels_dict = some info →
      s.total_position < info.size →
      execute_level p cp cash gl (s, out) level = (s, out)) := by
  constructor
  · intro i hi hside
    simp only [execute_grid_orders] at hi
    exact (foldl_execute_out_spec p cp cash gl _ s []
      (by intro j hj; cases hj) i hi).2 hside
  · intro out level info hocc hlt
    exact (execute_level_occupied p cp cash gl s out level info hocc).2
      (fun hc => absurd hc.2 (not_le.mpr hlt))

/-- C10 (witness): a level filled with recorded size 0.1 while the position is
only 0.01: even at a close far above the take-profit target the loop body
emits nothing and keeps the record. -/
theorem C10_witness :
    execute_level P4 61000 0 GL4 (S10, []) 59500 = (S10, []) :=
  (C10_no_oversell P4 61000 0 GL4 S10).2 [] 59500 ⟨59500, 1/10, 1⟩
    (by simp [S10, dict_lookup, level_key_ofNat]) (by norm_num [S10])
